import Mathlib

/-!
Verification of the sandbox2 core of this repository (a process-sandboxing
framework).  The repository snapshot under review contains the sandbox2 test
suite (`sandbox2_test.cc`), a libtiff short-tag test, and the libtiff example
driver `main_sandboxed.cc`.  The Policy/PolicyBuilder, Monitor, Sandbox2
orchestrator and Result implementations themselves are not part of the
snapshot, so they are modelled here from the specification, constrained by the
behaviour the in-snapshot tests pin down.  The `check_rgba_pixel` index
arithmetic is embedded directly from `main_sandboxed.cc`.
-/

namespace sandbox2

/-- Modelled from the spec: the compiled Policy decision set
`{ALLOW, DENY-KILL, DENY-ERRNO, TRAP, LOG}` (spec section 2, "Policy").
The missing source is `sandbox2/policy.h`. -/
inductive Action where
  | ALLOW
  | DENY_KILL
  | DENY_ERRNO (errno : Nat)
  | TRAP
  | LOG
deriving DecidableEq, Repr

/-- Maximum number of syscall arguments a rule condition may reference. -/
def kMaxSyscallArgs : Nat := 6

/-- Modelled from the spec: one syscall rule of a Policy, keyed on syscall
number and architecture, with decidable conditions on argument values
(pairs of argument index and required value).  The missing source is the
rule representation of `sandbox2/policybuilder.h`. -/
structure SyscallRule where
  nr : Nat
  arch : Nat
  argConds : List (Nat × Nat)
  action : Action
deriving DecidableEq, Repr

/-- A rule matches an attempted syscall when number and architecture agree and
every argument condition holds on the argument values. -/
def ruleMatches (r : SyscallRule) (nr arch : Nat) (args : List Nat) : Bool :=
  r.nr == nr && r.arch == arch &&
    r.argConds.all (fun c => args.getD c.1 0 == c.2)

/-- Modelled from the spec: a rule is structurally invalid when it compares an
argument position beyond the ones a syscall can have ("argument comparisons on
a syscall with fewer arguments than referenced", spec section 4.1). -/
def ruleStructurallyInvalid (r : SyscallRule) : Bool :=
  r.argConds.any (fun c => kMaxSyscallArgs ≤ c.1)

/-- Modelled from the spec: an immutable compiled Policy — ordered rule list,
one default action, and the three stack-trace collection flags
(spec section 3, "Policy").  The missing source is `sandbox2/policy.h`. -/
structure Policy where
  rules : List SyscallRule
  defaultAction : Action
  collect_stacktraces_on_violation : Bool
  collect_stacktraces_on_timeout : Bool
  collect_stacktraces_on_exit : Bool
deriving DecidableEq, Repr

/-- First-match-wins evaluation of an ordered rule list; the default action is
returned when no rule matches (spec section 3, Policy invariant). -/
def evalRules : List SyscallRule → Action → Nat → Nat → List Nat → Action
  | [], dflt, _, _, _ => dflt
  | r :: rest, dflt, nr, arch, args =>
    if ruleMatches r nr arch args then r.action
    else evalRules rest dflt nr arch args

/-- Modelled from the spec: the Policy decision on an intercepted syscall
attempt `(syscall number, architecture, argument values)`. -/
def Policy.eval (p : Policy) (nr arch : Nat) (args : List Nat) : Action :=
  evalRules p.rules p.defaultAction nr arch args

/-- Modelled from the spec: the PolicyBuilder accumulator — rules in insertion
order, an optional explicit default action, the explicitly-named
allow-everything bypass, and the stack-trace flags with their documented
defaults (violation/timeout collected by default, exit not).  The missing
source is `sandbox2/policybuilder.h`. -/
structure PolicyBuilder where
  rules : List SyscallRule
  default_action : Option Action
  danger_default_allow_all : Bool
  collect_violation : Bool
  collect_timeout : Bool
  collect_exit : Bool
deriving DecidableEq, Repr

/-- The state of a freshly constructed `PolicyBuilder()`: no rules, no default
action, no bypass, stack traces collected on violation and timeout by default
but not on clean exit. -/
def PolicyBuilder.init : PolicyBuilder :=
  ⟨[], none, false, true, true, false⟩

/-- The `AllowAllSyscalls()` action from `sandbox2/allow_all_syscalls.h`:
the "allow every syscall" escape hatch, semantically default-action ALLOW. -/
def AllowAllSyscalls : Action := Action.ALLOW

/-- `PolicyBuilder::DefaultAction`: sets the explicit default action. -/
def PolicyBuilder.DefaultAction (b : PolicyBuilder) (a : Action) : PolicyBuilder :=
  { b with default_action := some a }

/-- `PolicyBuilder::DangerDefaultAllowAll`: the stronger explicitly-named
allow-everything bypass (spec section 4.1). -/
def PolicyBuilder.DangerDefaultAllowAll (b : PolicyBuilder) : PolicyBuilder :=
  { b with danger_default_allow_all := true }

/-- `PolicyBuilder::CollectStacktracesOnViolation`. -/
def PolicyBuilder.CollectStacktracesOnViolation (b : PolicyBuilder) (v : Bool) :
    PolicyBuilder :=
  { b with collect_violation := v }

/-- `PolicyBuilder::CollectStacktracesOnTimeout`. -/
def PolicyBuilder.CollectStacktracesOnTimeout (b : PolicyBuilder) (v : Bool) :
    PolicyBuilder :=
  { b with collect_timeout := v }

/-- `PolicyBuilder::CollectStacktracesOnExit`. -/
def PolicyBuilder.CollectStacktracesOnExit (b : PolicyBuilder) (v : Bool) :
    PolicyBuilder :=
  { b with collect_exit := v }

/-- `PolicyBuilder::AddRule`: appends a rule, preserving insertion order. -/
def PolicyBuilder.AddRule (b : PolicyBuilder) (r : SyscallRule) : PolicyBuilder :=
  { b with rules := b.rules ++ [r] }

/-- Modelled from the spec: `PolicyBuilder::TryBuild`
(`build() -> Policy | Error`, spec section 4.1).  The missing source is
`sandbox2/policybuilder.cc`.  The build fails when rule validation detects a
structurally invalid condition.  The spec further says the build fails when no
default action was set and no allow-everything bypass was requested, but the
snapshot's own test `RunAsyncTest.SandboxeeViolationDisabledStacktraces`
(src/unnamed/part_000) builds a plain `PolicyBuilder()` — no default action,
no bypass — and asserts success, relying on the implicit fail-closed
deny-kill default to produce a VIOLATION run; the model follows the tests: an
unset default action compiles to `DENY_KILL`. -/
def PolicyBuilder.TryBuild (b : PolicyBuilder) : Except String Policy :=
  if b.rules.any ruleStructurallyInvalid then
    Except.error "invalid policy rule"
  else
    Except.ok
      { rules := b.rules
        defaultAction :=
          if b.danger_default_allow_all then Action.ALLOW
          else b.default_action.getD Action.DENY_KILL
        collect_stacktraces_on_violation := b.collect_violation
        collect_stacktraces_on_timeout := b.collect_timeout
        collect_stacktraces_on_exit := b.collect_exit }

/-- The closed status enum of `sandbox2::Result`
(`{OK, SIGNALED, VIOLATION, TIMEOUT, EXTERNAL_KILL, SETUP_ERROR}`,
spec section 3, "Result"). -/
inductive StatusEnum where
  | OK
  | SIGNALED
  | VIOLATION
  | TIMEOUT
  | EXTERNAL_KILL
  | SETUP_ERROR
deriving DecidableEq, Repr

/-- Modelled from the spec: the outcome value `sandbox2::Result` — final
status, integer reason code, and the captured stack trace (an ordered sequence
of frames, empty when collection was disabled or not applicable).  The missing
source is `sandbox2/result.h`. -/
structure Result where
  final_status : StatusEnum
  reason_code : Nat
  stack_trace : List String
deriving DecidableEq, Repr

/-- `Result::GetStackTrace`: pure accessor for the captured frames. -/
def Result.GetStackTrace (r : Result) : List String := r.stack_trace

/-- The POSIX abort signal number, used by the `abort` testcase. -/
def SIGABRT : Nat := 6

/-- Stack-trace capture guarded by a collection flag: the captured frames when
the flag is set, the empty trace when collection is disabled. -/
def collectTrace (flag : Bool) (frames : List String) : List String :=
  if flag then frames else []

/-- Modelled from the spec: the events the Monitor's trace loop observes while
in state TRACING (spec section 4.2).  `signalDelivered` carries whether
core-dumping is enabled for the sandboxee; `processExit` carries the exit
code. -/
inductive Event where
  | syscallAttempt (nr arch : Nat) (args : List Nat)
  | signalDelivered (sig : Nat) (coreDumpEnabled : Bool)
  | processExit (exitCode : Nat)
  | wallDeadlineExceeded
  | setupFailure

/-- Modelled from the spec: one evaluation of the Monitor's TRACING state on
an observed event (spec section 4.2).  `frames` are the frames a best-effort
stack-trace capture of the frozen sandboxee would produce; `killRequested` is
the external-kill flag set by `Sandbox2::Kill()`, checked before the event is
classified so that an issued kill takes precedence over any concurrently
detected timeout or violation and never captures a trace.  `none` means the
Monitor stays in TRACING; `some r` means it transitions to FINISHED with
Result `r`.  The missing source is `sandbox2/monitor.cc`. -/
def monitorStep (p : Policy) (frames : List String) (killRequested : Bool)
    (ev : Event) : Option Result :=
  match killRequested, ev with
  | true, _ => some ⟨StatusEnum.EXTERNAL_KILL, 0, []⟩
  | false, Event.syscallAttempt nr arch args =>
    match p.eval nr arch args with
    | Action.ALLOW => none
    | Action.DENY_ERRNO _ => none
    | Action.LOG => none
    | Action.DENY_KILL =>
      some ⟨StatusEnum.VIOLATION, nr,
            collectTrace p.collect_stacktraces_on_violation frames⟩
    | Action.TRAP =>
      some ⟨StatusEnum.VIOLATION, nr,
            collectTrace p.collect_stacktraces_on_violation frames⟩
  | false, Event.signalDelivered _ true => none
  | false, Event.signalDelivered sig false =>
    some ⟨StatusEnum.SIGNALED, sig, []⟩
  | false, Event.processExit 0 => some ⟨StatusEnum.OK, 0, []⟩
  | false, Event.processExit (c + 1) =>
    some ⟨StatusEnum.SIGNALED, c + 1,
          collectTrace p.collect_stacktraces_on_exit frames⟩
  | false, Event.wallDeadlineExceeded =>
    some ⟨StatusEnum.TIMEOUT, 0,
          collectTrace p.collect_stacktraces_on_timeout frames⟩
  | false, Event.setupFailure => some ⟨StatusEnum.SETUP_ERROR, 0, []⟩

/-- Modelled from the spec: the Monitor's supervisory wait loop over discrete
time (spec sections 4.2 and 5).  The loop never blocks indefinitely: it wakes
every `poll` time units (the bounded poll interval) regardless of sandboxee
progress, and at each wake evaluates the wall-time deadline currently in
effect (`deadlineAt`, a function of the wake time because
`set_walltime_limit` may install or change the deadline mid-run).  A spinning
or starving sandboxee contributes no events, so wakes alone drive progress.
Returns the wake time at which the TIMEOUT Result is produced; `none` when
the fuel bound is exhausted first.  The missing source is
`sandbox2/monitor.cc`. -/
def monitorWaitLoop (p : Policy) (frames : List String)
    (deadlineAt : Nat → Option Nat) (poll : Nat) :
    Nat → Nat → Option (Nat × Result)
  | 0, _ => none
  | fuel + 1, now =>
    let next := now + poll
    match deadlineAt next with
    | some d =>
      if d ≤ next then
        some (next, ⟨StatusEnum.TIMEOUT, 0,
                     collectTrace p.collect_stacktraces_on_timeout frames⟩)
      else monitorWaitLoop p frames deadlineAt poll fuel next
    | none => monitorWaitLoop p frames deadlineAt poll fuel next

/-- A wall-time limit that is constant for the whole run: the deadline is
`limit` from the start. -/
def constDeadline (limit : Nat) : Nat → Option Nat :=
  fun _ => some limit

/-- Modelled from the spec: the effect of calling `set_walltime_limit L` at
time `t0` (before `RunAsync` when `t0 = 0`, after it when `t0 > 0`): wakes at
or after `t0` see the deadline `t0 + L`; earlier wakes see no deadline. -/
def limitSetAt (t0 L : Nat) : Nat → Option Nat :=
  fun t => if t0 ≤ t then some (t0 + L) else none

/-- A scheduler step of the pair (caller context, Monitor): either the
transient caller context that issued `RunAsync` exits, or the Monitor handles
its next pending event. -/
inductive SchedStep where
  | callerExits
  | monitorHandles

/-- Modelled from the spec: the joint state of one run — whether the caller
context that issued `RunAsync` is still alive, the sandboxee events the
Monitor has not yet handled, and the Result once FINISHED. -/
structure RunState where
  callerAlive : Bool
  remaining : List Event
  finished : Option Result

/-- Modelled from the spec: one scheduler step.  The Monitor runs on its own
execution context (spec section 5), so the caller context exiting only marks
it dead; Monitor progress reads nothing from the caller's liveness. -/
def schedStep (p : Policy) (frames : List String) :
    SchedStep → RunState → RunState
  | SchedStep.callerExits, s => { s with callerAlive := false }
  | SchedStep.monitorHandles, s =>
    match s.finished, s.remaining with
    | some _, _ => s
    | none, [] => s
    | none, e :: rest =>
      { s with remaining := rest, finished := monitorStep p frames false e }

/-- Runs a whole schedule of steps from a state. -/
def runSched (p : Policy) (frames : List String) :
    List SchedStep → RunState → RunState
  | [], s => s
  | st :: rest, s => runSched p frames rest (schedStep p frames st s)

/-- The state right after `RunAsync` succeeded: the starting caller context is
alive, the sandboxee will produce `events`, nothing is finished. -/
def initialRunState (events : List Event) : RunState :=
  ⟨true, events, none⟩

end sandbox2

/-- Embedded from `src/oss-internship-2020/libtiff/example/main_sandboxed.cc`,
`check_rgba_pixel`: the upside-down adjustment
`int adjusted_pixel = pixel % 128 + (127 - (pixel / 128)) * 128;`.
For pixel indices in `[0, 128*128)` the C `int` arithmetic never goes
negative, so `Nat` arithmetic (with truncated subtraction) agrees with it. -/
def adjusted_pixel (pixel : Nat) : Nat :=
  pixel % 128 + (127 - pixel / 128) * 128

namespace sandbox2

/-- Helper: first-match-wins evaluation of a rule list agrees with
`List.find?` on the matching predicate. -/
theorem evalRules_eq_find (rules : List sandbox2.SyscallRule)
    (dflt : sandbox2.Action) (nr arch : Nat) (args : List Nat) :
    evalRules rules dflt nr arch args =
      match rules.find? (fun r => ruleMatches r nr arch args) with
      | some r => r.action
      | none => dflt := by
  induction rules with
  | nil => rfl
  | cons r rest ih =>
    cases h : ruleMatches r nr arch args <;>
      simp [evalRules, List.find?_cons, h, ih]

/-- Helper: the wait loop reaches FINISHED with the TIMEOUT Result within one
poll interval past the effective deadline `D`, whenever wakes see an expired
deadline exactly from `D` on and the fuel covers the distance to `D`. -/
theorem monitorWaitLoop_finishes (p : Policy) (frames : List String)
    (deadlineAt : Nat → Option Nat) (D poll : Nat)
    (h1 : ∀ t d, deadlineAt t = some d → (d ≤ t ↔ D ≤ t))
    (h2 : ∀ t, D ≤ t → ∃ d, deadlineAt t = some d) :
    ∀ fuel now, now ≤ D → D - now < fuel * poll →
      ∃ t, monitorWaitLoop p frames deadlineAt poll fuel now =
          some (t, ⟨StatusEnum.TIMEOUT, 0,
                    collectTrace p.collect_stacktraces_on_timeout frames⟩) ∧
        t ≤ D + poll := by
  intro fuel
  induction fuel with
  | zero => intro now hle hlt; omega
  | succ fuel ih =>
    intro now hle hlt
    rw [Nat.succ_mul] at hlt
    rcases hdl : deadlineAt (now + poll) with _ | d
    · have hlt2 : now + poll < D := by
        by_contra hc
        push_neg at hc
        obtain ⟨d, hd⟩ := h2 _ hc
        rw [hd] at hdl
        exact Option.noConfusion hdl
      obtain ⟨t, hloop, hbound⟩ := ih (now + poll) (by omega) (by omega)
      refine ⟨t, ?_, hbound⟩
      simpa [monitorWaitLoop, hdl] using hloop
    · by_cases hD : D ≤ now + poll
      · have hd : d ≤ now + poll := (h1 _ _ hdl).mpr hD
        refine ⟨now + poll, ?_, by omega⟩
        simp [monitorWaitLoop, hdl, hd]
      · have hd : ¬ d ≤ now + poll := fun hc => hD ((h1 _ _ hdl).mp hc)
        obtain ⟨t, hloop, hbound⟩ := ih (now + poll) (by omega) (by omega)
        refine ⟨t, ?_, hbound⟩
        simpa [monitorWaitLoop, hdl, hd] using hloop

/-- Helper: the finished Result (and the events still pending) after running
any schedule do not depend on whether the caller context is alive. -/
theorem runSched_caller_invariant (p : Policy) (frames : List String) :
    ∀ (steps : List SchedStep) (a b : Bool) (rem : List Event)
      (fin : Option Result),
      (runSched p frames steps ⟨a, rem, fin⟩).finished =
        (runSched p frames steps ⟨b, rem, fin⟩).finished := by
  intro steps
  induction steps with
  | nil => intro a b rem fin; rfl
  | cons st rest ih =>
    intro a b rem fin
    cases st with
    | callerExits =>
      exact ih false false rem fin
    | monitorHandles =>
      cases fin with
      | some r => simpa [runSched, schedStep] using ih a b rem (some r)
      | none =>
        cases rem with
        | nil => simpa [runSched, schedStep] using ih a b [] none
        | cons e rest2 =>
          simpa [runSched, schedStep] using
            ih a b rest2 (monitorStep p frames false e)

end sandbox2

namespace sandbox2

/-- C1 counterexample: the exact builder of
`RunAsyncTest.SandboxeeViolationDisabledStacktraces` — a fresh
`PolicyBuilder()` with only `CollectStacktracesOnViolation(false)`, hence no
default action set and no allow-everything bypass — builds successfully
(as the test asserts) instead of returning an error, refuting the claim that
the build must fail. -/
theorem c1_build_without_default_succeeds :
    (PolicyBuilder.init.CollectStacktracesOnViolation false).default_action =
      none ∧
    (PolicyBuilder.init.CollectStacktracesOnViolation
      false).danger_default_allow_all = false ∧
    (PolicyBuilder.init.CollectStacktracesOnViolation false).TryBuild =
      Except.ok ⟨[], Action.DENY_KILL, false, true, false⟩ ∧
    ¬ ∃ e, (PolicyBuilder.init.CollectStacktracesOnViolation false).TryBuild =
      Except.error e := by
  refine ⟨rfl, rfl, rfl, ?_⟩
  rintro ⟨e, he⟩
  rw [show (PolicyBuilder.init.CollectStacktracesOnViolation false).TryBuild =
        Except.ok ⟨[], Action.DENY_KILL, false, true, false⟩ from rfl] at he
  exact Except.noConfusion he

/-- C1 (amended): when no default action was set and no allow-everything
bypass was requested, `TryBuild` nonetheless succeeds — provided rule
validation passes — and compiles the unset default to the fail-closed
DENY_KILL action, so unmatched syscalls produce a VIOLATION. -/
theorem c1_amended_build_defaults_to_deny (b : PolicyBuilder)
    (hd : b.default_action = none) (hb : b.danger_default_allow_all = false)
    (hr : b.rules.any ruleStructurallyInvalid = false) :
    b.TryBuild = Except.ok
      ⟨b.rules, Action.DENY_KILL, b.collect_violation, b.collect_timeout,
       b.collect_exit⟩ := by
  simp [PolicyBuilder.TryBuild, hd, hb, hr]

/-- C1 (amended) witness at the test's builder. -/
theorem c1_amended_witness :
    (PolicyBuilder.init.CollectStacktracesOnViolation false).TryBuild =
      Except.ok ⟨[], Action.DENY_KILL, false, true, false⟩ :=
  c1_amended_build_defaults_to_deny _ rfl rfl rfl

/-- C2: once `Kill()` has been issued, the Monitor's next evaluation finishes
with EXTERNAL_KILL and an empty stack trace, whatever event was concurrently
observed (wall-time deadline expiry, a violating syscall, a signal, an exit)
and however the stack-trace collection flags are set. -/
theorem c2_external_kill_precedence (p : Policy) (frames : List String)
    (ev : Event) :
    ∃ r, monitorStep p frames true ev = some r ∧
      r.final_status = StatusEnum.EXTERNAL_KILL ∧ r.GetStackTrace = [] :=
  ⟨⟨StatusEnum.EXTERNAL_KILL, 0, []⟩, rfl, rfl, rfl⟩

/-- C3: with a wall-time limit in force from the start and a positive bounded
poll interval, the Monitor's wait loop — which is driven solely by its own
periodic wakes, so a sandboxee that spins or starves its threads and produces
no events cannot starve it — produces the TIMEOUT Result at a wake time at
most one poll interval past the limit (hence below any larger bound once
`limit + poll` is below it). -/
theorem c3_timeout_bounded_overhead (p : Policy) (frames : List String)
    (limit poll : Nat) (hpoll : 0 < poll) :
    ∃ t r, monitorWaitLoop p frames (constDeadline limit) poll (limit + 1) 0 =
        some (t, r) ∧ r.final_status = StatusEnum.TIMEOUT ∧
        t ≤ limit + poll := by
  have h1 : ∀ t d, constDeadline limit t = some d → (d ≤ t ↔ limit ≤ t) := by
    intro t d hd
    simp only [constDeadline, Option.some.injEq] at hd
    rw [hd]
  have h2 : ∀ t, limit ≤ t → ∃ d, constDeadline limit t = some d :=
    fun t _ => ⟨limit, rfl⟩
  have hfuel : limit - 0 < (limit + 1) * poll := by
    have h := Nat.mul_le_mul_left (limit + 1) hpoll
    simp only [Nat.mul_one] at h
    omega
  obtain ⟨t, hloop, hb⟩ :=
    monitorWaitLoop_finishes p frames (constDeadline limit) limit poll h1 h2
      (limit + 1) 0 (Nat.zero_le _) hfuel
  exact ⟨t, _, hloop, rfl, hb⟩

/-- C3 witness: limit 5, poll interval 1 — TIMEOUT within 6 time units,
below the test's larger bound of 10. -/
theorem c3_timeout_bounded_overhead_witness :
    ∃ t r, monitorWaitLoop ⟨[], Action.DENY_KILL, true, true, false⟩ []
        (constDeadline 5) 1 6 0 = some (t, r) ∧
      r.final_status = StatusEnum.TIMEOUT ∧ t ≤ 6 :=
  c3_timeout_bounded_overhead ⟨[], Action.DENY_KILL, true, true, false⟩ [] 5 1
    (by decide)

/-- C4: a sandboxee that self-aborts — SIGABRT delivered with core-dumping
disabled — finishes with status SIGNALED and reason code SIGABRT, a status
distinct from VIOLATION. -/
theorem c4_abort_without_core_dump_signaled (p : Policy)
    (frames : List String) :
    ∃ r, monitorStep p frames false (Event.signalDelivered SIGABRT false) =
        some r ∧
      r.final_status = StatusEnum.SIGNALED ∧ r.reason_code = SIGABRT ∧
      StatusEnum.SIGNALED ≠ StatusEnum.VIOLATION :=
  ⟨⟨StatusEnum.SIGNALED, SIGABRT, []⟩, rfl, rfl, rfl, by decide⟩

/-- C5: a TIMEOUT Result's stack trace is governed by the
collect_stacktraces_on_timeout flag: disabled gives the empty trace; enabled
— the `PolicyBuilder()` default — gives exactly the frames captured from the
sandboxee process, so any symbol among the captured frames (e.g. the function
the sandboxee was blocked in) appears in the trace. -/
theorem c5_timeout_stacktrace_flag (p : Policy) (frames : List String)
    (b : Bool) :
    monitorStep { p with collect_stacktraces_on_timeout := b } frames false
        Event.wallDeadlineExceeded =
      some ⟨StatusEnum.TIMEOUT, 0, if b then frames else []⟩ ∧
    PolicyBuilder.init.collect_timeout = true :=
  ⟨by cases b <;> rfl, rfl⟩

/-- C6: a run that finishes in VIOLATION — the policy decision on the
attempted syscall is the fail-closed DENY_KILL — under a policy with
collect_stacktraces_on_violation disabled produces an empty stack trace. -/
theorem c6_violation_disabled_stacktrace (p : Policy) (frames : List String)
    (nr arch : Nat) (args : List Nat)
    (hflag : p.collect_stacktraces_on_violation = false)
    (hdeny : p.eval nr arch args = Action.DENY_KILL) :
    ∃ r, monitorStep p frames false (Event.syscallAttempt nr arch args) =
        some r ∧
      r.final_status = StatusEnum.VIOLATION ∧ r.GetStackTrace = [] := by
  refine ⟨⟨StatusEnum.VIOLATION, nr, []⟩, ?_, rfl, rfl⟩
  simp [monitorStep, hdeny, collectTrace, hflag]

/-- C6 witness: the policy of the disabled-stacktraces violation test
(no rules, DENY_KILL default, violation traces off) on a syscall attempt. -/
theorem c6_violation_disabled_stacktrace_witness :
    ∃ r, monitorStep ⟨[], Action.DENY_KILL, false, true, false⟩ ["frame"]
        false (Event.syscallAttempt 231 0 []) = some r ∧
      r.final_status = StatusEnum.VIOLATION ∧ r.GetStackTrace = [] :=
  c6_violation_disabled_stacktrace ⟨[], Action.DENY_KILL, false, true, false⟩
    ["frame"] 231 0 [] rfl rfl

/-- C7: `set_walltime_limit L` issued at time `t0` — before `RunAsync`
(`t0 = 0`) or while the run is already in progress (`t0 > 0`) — is read by
the Monitor's deadline check at its next wake, so a sandboxee still running
past the new deadline is timed out: the wait loop produces the TIMEOUT Result
within one poll interval past `t0 + L`. -/
theorem c7_walltime_limit_set_anytime (p : Policy) (frames : List String)
    (t0 L poll : Nat) (hpoll : 0 < poll) :
    ∃ t r, monitorWaitLoop p frames (limitSetAt t0 L) poll (t0 + L + 1) 0 =
        some (t, r) ∧ r.final_status = StatusEnum.TIMEOUT ∧
        t ≤ t0 + L + poll := by
  have h1 : ∀ t d, limitSetAt t0 L t = some d → (d ≤ t ↔ t0 + L ≤ t) := by
    intro t d hd
    simp only [limitSetAt] at hd
    by_cases ht : t0 ≤ t
    · rw [if_pos ht, Option.some.injEq] at hd
      rw [hd]
    · rw [if_neg ht] at hd
      exact Option.noConfusion hd
  have h2 : ∀ t, t0 + L ≤ t → ∃ d, limitSetAt t0 L t = some d := by
    intro t ht
    exact ⟨t0 + L, by simp only [limitSetAt, if_pos (by omega : t0 ≤ t)]⟩
  have hfuel : t0 + L - 0 < (t0 + L + 1) * poll := by
    have h := Nat.mul_le_mul_left (t0 + L + 1) hpoll
    simp only [Nat.mul_one] at h
    omega
  obtain ⟨t, hloop, hb⟩ :=
    monitorWaitLoop_finishes p frames (limitSetAt t0 L) (t0 + L) poll h1 h2
      (t0 + L + 1) 0 (Nat.zero_le _) hfuel
  exact ⟨t, _, hloop, rfl, hb⟩

/-- C7 witness: the limit takes effect both when set before the run
(`t0 = 0`) and when set two time units after the run started (`t0 = 2`). -/
theorem c7_walltime_limit_set_anytime_witness :
    (∃ t r, monitorWaitLoop ⟨[], Action.DENY_KILL, true, true, false⟩ []
        (limitSetAt 0 3) 1 4 0 = some (t, r) ∧
      r.final_status = StatusEnum.TIMEOUT ∧ t ≤ 4) ∧
    (∃ t r, monitorWaitLoop ⟨[], Action.DENY_KILL, true, true, false⟩ []
        (limitSetAt 2 3) 1 6 0 = some (t, r) ∧
      r.final_status = StatusEnum.TIMEOUT ∧ t ≤ 6) :=
  ⟨c7_walltime_limit_set_anytime ⟨[], Action.DENY_KILL, true, true, false⟩ []
      0 3 1 (by decide),
   c7_walltime_limit_set_anytime ⟨[], Action.DENY_KILL, true, true, false⟩ []
      2 3 1 (by decide)⟩

/-- C8: for every Policy and every (syscall number, architecture, argument
values) input exactly one decision applies: evaluation yields the action of
the first rule in insertion order that matches (`List.find?` order), and the
single default action exactly when no rule matches. -/
theorem c8_first_match_wins (p : Policy) (nr arch : Nat) (args : List Nat) :
    p.eval nr arch args =
      match p.rules.find? (fun r => ruleMatches r nr arch args) with
      | some r => r.action
      | none => p.defaultAction :=
  evalRules_eq_find p.rules p.defaultAction nr arch args

/-- C9: a run started from a transient caller context — the caller exits
right after issuing `RunAsync` — finishes with the same Result as if the
starting context had stayed alive for the whole run; in particular a
sandboxee that exits cleanly still yields OK. -/
theorem c9_transient_starter_harmless (p : Policy) (frames : List String)
    (steps : List SchedStep) (events : List Event) :
    (runSched p frames (SchedStep.callerExits :: steps)
        (initialRunState events)).finished =
      (runSched p frames steps (initialRunState events)).finished ∧
    (runSched p frames [SchedStep.callerExits, SchedStep.monitorHandles]
        (initialRunState [Event.processExit 0])).finished =
      some ⟨StatusEnum.OK, 0, []⟩ :=
  ⟨runSched_caller_invariant p frames steps false true events none, rfl⟩

end sandbox2

/-- C10: the upside-down adjustment of `check_rgba_pixel` maps every pixel
index below 128·128 back into the 128·128-element buffer — so the subsequent
buffer access stays in bounds — and applying the adjustment twice restores
the original index. -/
theorem c10_adjusted_pixel_involution (p : Nat) (hp : p < 128 * 128) :
    adjusted_pixel p < 128 * 128 ∧ adjusted_pixel (adjusted_pixel p) = p := by
  unfold adjusted_pixel
  omega

/-- C10 witness at the pixel index 512 the example actually checks. -/
theorem c10_adjusted_pixel_involution_witness :
    512 < 128 * 128 ∧
    (adjusted_pixel 512 < 128 * 128 ∧
      adjusted_pixel (adjusted_pixel 512) = 512) :=
  ⟨by decide, c10_adjusted_pixel_involution 512 (by decide)⟩
